import Mathlib

/-!
# The call session relay of `langflow-twilio-voice`

A shallow embedding of `src/config.js` and `src/index.js`:

* `tunnelUrl` and `voice` embed the configuration constant and the `POST /voice` route;
* `start`, `resume` and `handleMessage` embed the `socket.on("message", async ...)` handler,
  split at its `await`;
* `step` and `exec` embed the way the event emitter runs that handler: one call per inbound
  frame, the returned promise not being awaited.

Values that come out of `JSON.parse` are kept as a tree (`Json`); `undefined` is `none`.
-/

namespace Relay

/-! ## JavaScript values read by the handler -/

/-- A value produced by `JSON.parse`. An object is its list of own properties, a name being
read at its first entry; a number is carried by an integer, since no branch of the program
inspects a number. -/
inductive Json where
  | null : Json
  | bool (b : Bool) : Json
  | num (n : Int) : Json
  | str (s : String) : Json
  | arr (items : List Json) : Json
  | obj (props : List (String × Json)) : Json
  deriving Repr

/-- A JavaScript value as the handler sees it: `none` is `undefined`. -/
abbrev JsVal := Option Json

/-- The outcome of `JSON.parse` on a text: a `SyntaxError`, or the parsed value. -/
inductive Parsed where
  | syntaxError : Parsed
  | value (v : Json) : Parsed

/-- Own property lookup in a property list. -/
def lookupProp (key : String) : List (String × Json) → JsVal
  | [] => none
  | (k, v) :: rest => if k = key then some v else lookupProp key rest

/-- Member access `v.key` for the names the program reads (`type`, `callSid`, `voicePrompt`,
`description`, `outputs`, `results`, `message`, `text`): none of them is defined on a built-in
prototype, so only an object's own property can answer. `none` is the `TypeError` raised on
`undefined` and `null`; `some none` is the value `undefined`. -/
def getMember (v : JsVal) (key : String) : Option JsVal :=
  match v with
  | none => none
  | some Json.null => none
  | some (Json.obj props) => some (lookupProp key props)
  | some _ => some none

/-- Element access `v[0]`: the first element of an array, the first character of a string,
the own property `"0"` of an object. `none` is the `TypeError` raised on `undefined` and
`null`. -/
def getIndex0 (v : JsVal) : Option JsVal :=
  match v with
  | none => none
  | some Json.null => none
  | some (Json.arr items) => some items.head?
  | some (Json.str s) =>
      some (match s.data with
            | [] => none
            | c :: _ => some (Json.str (String.mk [c])))
  | some (Json.obj props) => some (lookupProp "0" props)
  | some _ => some none

mutual
/-- Whether converting the value to a string, as a template literal does, raises a
`TypeError`. An object converts through `toString`, which is `Object.prototype.toString`
unless the object has an own property of that name (never callable in parsed JSON, and
`Object.prototype.valueOf` then returns the object itself); an array joins the conversions of
its elements. -/
def Json.toStringThrows : Json → Bool
  | Json.obj props => (lookupProp "toString" props).isSome
  | Json.arr items => Json.anyToStringThrows items
  | _ => false
/-- Whether the string conversion of some element of an array raises. -/
def Json.anyToStringThrows : List Json → Bool
  | [] => false
  | x :: rest => x.toStringThrows || Json.anyToStringThrows rest
end

/-- Whether the template literal with the value interpolated raises; `undefined` converts to
the text `undefined`. -/
def interpolationThrows : JsVal → Bool
  | none => false
  | some v => v.toStringThrows

/-! ## `config.js` and the `POST /voice` route -/

/-- The characters of `https://`. -/
def httpsScheme : List Char := ['h', 't', 't', 'p', 's', ':', '/', '/']

/-- The characters of `http://`. -/
def httpScheme : List Char := ['h', 't', 't', 'p', ':', '/', '/']

/-- The replacement `replace(/^https?:\/\//, "")` on the characters of a text: the pattern is
anchored at the start, so at most one leading scheme is removed. -/
def stripScheme (cs : List Char) : List Char :=
  if httpsScheme.isPrefixOf cs then cs.drop httpsScheme.length
  else if httpScheme.isPrefixOf cs then cs.drop httpScheme.length
  else cs

/-- The constant `tunnelUrl` of `config.js`, as a function of the value of `TUNNEL_DOMAIN`. -/
def tunnelUrl (tunnelDomain : String) : String :=
  String.mk (stripScheme tunnelDomain.data)

/-- What the `POST /voice` route hands to the reply: the content type, and the two attributes of
the relay directive of the call-control document. -/
structure VoiceReply where
  contentType : String
  url : String
  welcomeGreeting : String

/-- The `POST /voice` route. -/
def voice (tunnelDomain : String) : VoiceReply :=
  { contentType := "text/xml"
    url := "wss://" ++ tunnelUrl tunnelDomain ++ "/ws"
    welcomeGreeting := "Ahoy! How can I help?" }

/-! ## The connection and its messages -/

/-- The two configuration constants the handler reads; an unset variable is `none`. -/
structure Config where
  langflowApiKey : Option String
  langflowFlowId : Option String

/-- The text a template literal gives for a configuration constant. -/
def envText : Option String → String
  | none => "undefined"
  | some s => s

/-- The object passed to `JSON.stringify` as the request body; a field that is `undefined` is
left out of the serialised text. -/
structure RequestBody where
  input_value : JsVal
  output_type : String
  input_type : String
  session_id : JsVal

/-- The arguments of one `fetch` call. -/
structure Request where
  apiUrl : String
  method : String
  contentType : String
  authorization : String
  body : RequestBody

/-- A message written to the socket. -/
inductive Outbound where
  | textMessage (token : JsVal) (last : Bool) : Outbound
  | endMessage : Outbound

/-- The socket of one connection: the `callSid` property the handler keeps on it, and the
messages sent over it so far, oldest first. -/
structure Socket where
  callSid : JsVal
  sent : List Outbound

/-- A socket as it is when the connection opens. -/
def Socket.fresh : Socket := { callSid := none, sent := [] }

/-- Modelled from the spec: `relay_responses.js` is not among the sources. The spoken-text
message: type text, the given token, `last` false. -/
def encodeReply (text : JsVal) : Outbound := Outbound.textMessage text false

/-- Modelled from the spec: `relay_responses.js` is not among the sources. The end-of-call
message. -/
def encodeEnd : Outbound := Outbound.endMessage

/-- Modelled from the spec: `sendResponse` of `relay_responses.js`, not among the sources. It
sends one spoken-text message carrying the text. -/
def sendResponse (socket : Socket) (text : JsVal) : Socket :=
  { socket with sent := socket.sent ++ [encodeReply text] }

/-- Modelled from the spec: `sendErrorAndEnd` of `relay_responses.js`, not among the sources.
It sends the spoken apology, immediately followed by the end-of-call message. -/
def sendErrorAndEnd (socket : Socket) (message : String) : Socket :=
  { socket with sent := socket.sent ++ [encodeReply (some (Json.str message)), encodeEnd] }

/-- The apology sent when the remote API answers with a failure status. -/
def langflowApology : String :=
  "I'm sorry, an application error has occurred with the Langflow API."

/-- The apology sent from the `catch` block. -/
def genericApology : String := "I'm sorry, an application error has occurred."

/-! ## The message handler -/

/-- How the remote call of one prompt ends: `fetch` rejects; or a response arrives but reading
its body rejects; or a response arrives with a status and a body, the body given by what
`JSON.parse` makes of it. -/
inductive FetchResult where
  | rejected : FetchResult
  | bodyFailed (status : Nat) : FetchResult
  | response (status : Nat) (body : Parsed) : FetchResult

/-- The `ok` flag of a response. -/
def isOk (status : Nat) : Bool := decide (200 ≤ status) && decide (status < 300)

/-- Where one call of the handler stands: its promise fulfilled, its promise rejected (an
exception left the handler), or suspended at `await fetch(...)` with the request issued. -/
inductive Progress where
  | fulfilled : Progress
  | rejected : Progress
  | awaiting (req : Request) : Progress

/-- The request built for a prompt (lines 48 to 65). -/
def buildRequest (cfg : Config) (socket : Socket) (voicePrompt : JsVal) : Request :=
  { apiUrl := "https://api.langflow.astra.datastax.com/lf/ae8ca9a9-1a2f-46f7-9505-71efa70416d9/api/v1/run/"
      ++ envText cfg.langflowFlowId ++ "?stream=false"
    method := "POST"
    contentType := "application/json"
    authorization := "Bearer " ++ envText cfg.langflowApiKey
    body :=
      { input_value := voicePrompt
        output_type := "chat"
        input_type := "chat"
        session_id := socket.callSid } }

/-- The handler from its entry to its first suspension: `JSON.parse`, the `switch` on
`message.type`, and for a prompt everything up to `await fetch(...)`. -/
def start (cfg : Config) (socket : Socket) (data : Parsed) : Socket × Progress :=
  match data with
  | Parsed.syntaxError => (socket, Progress.rejected)
  | Parsed.value message =>
    match getMember (some message) "type" with
    | none => (socket, Progress.rejected)
    | some (some (Json.str ty)) =>
      if ty = "setup" then
        match getMember (some message) "callSid" with
        | none => (socket, Progress.rejected)
        | some callSid =>
          if interpolationThrows callSid then (socket, Progress.rejected)
          else ({ socket with callSid := callSid }, Progress.fulfilled)
      else if ty = "prompt" then
        match getMember (some message) "voicePrompt" with
        | none => (socket, Progress.rejected)
        | some voicePrompt =>
          if interpolationThrows voicePrompt then (socket, Progress.rejected)
          else (socket, Progress.awaiting (buildRequest cfg socket voicePrompt))
      else if ty = "error" then
        match getMember (some message) "description" with
        | none => (socket, Progress.rejected)
        | some description =>
          if interpolationThrows description then (socket, Progress.rejected)
          else (socket, Progress.fulfilled)
      else (socket, Progress.fulfilled)
    | some _ => (socket, Progress.fulfilled)

/-- The read `responseData.outputs[0].outputs[0].results.message.text` (line 81); `none` is a
`TypeError` raised on the way. -/
def readOutputText (responseData : Json) : Option JsVal :=
  getMember (some responseData) "outputs" >>= fun outputs =>
  getIndex0 outputs >>= fun first =>
  getMember first "outputs" >>= fun inner =>
  getIndex0 inner >>= fun innerFirst =>
  getMember innerFirst "results" >>= fun results =>
  getMember results "message" >>= fun message =>
  getMember message "text"

/-- The `try` block after `fetch` has settled (lines 66 to 83): the socket it leaves, and
whether it ended by an exception. -/
def tryBlock (socket : Socket) (res : FetchResult) : Socket × Bool :=
  match res with
  | FetchResult.rejected => (socket, true)
  | FetchResult.bodyFailed _ => (socket, true)
  | FetchResult.response status body =>
    if !isOk status then (sendErrorAndEnd socket langflowApology, false)
    else
      match body with
      | Parsed.syntaxError => (socket, true)
      | Parsed.value responseData =>
        match readOutputText responseData with
        | none => (socket, true)
        | some outputText =>
          let socket1 := sendResponse socket outputText
          if interpolationThrows outputText then (socket1, true) else (socket1, false)

/-- The handler from the settling of `fetch` to its end: the `try` block, then the `catch`
block if an exception was raised. No shared state is touched between the two awaits of the
`try` block, so they are taken in one piece. -/
def resume (socket : Socket) (res : FetchResult) : Socket :=
  match tryBlock socket res with
  | (socket1, true) => sendErrorAndEnd socket1 genericApology
  | (socket1, false) => socket1

/-- One call of the handler run to its end, the remote call settling as `res` if one is
made: the socket it leaves, the request it issued if any, and whether an exception left it. -/
structure Handled where
  socket : Socket
  request : Option Request
  raised : Bool

/-- The handler run to its end on one inbound frame. -/
def handleMessage (cfg : Config) (socket : Socket) (data : Parsed) (res : FetchResult) :
    Handled :=
  match start cfg socket data with
  | (socket1, Progress.fulfilled) => { socket := socket1, request := none, raised := false }
  | (socket1, Progress.rejected) => { socket := socket1, request := none, raised := true }
  | (socket1, Progress.awaiting req) =>
    { socket := resume socket1 res, request := some req, raised := false }

/-! ## The event loop of one connection -/

/-- One connection under the event emitter: the socket, the number of frames delivered so far,
the handler calls suspended at their remote call (each with the arrival index of its frame),
and two records kept for the statements below: the requests issued so far, and for every sent
message the arrival index of the frame whose handler call sent it. -/
structure Loop where
  socket : Socket
  arrivals : Nat
  waiting : List (Nat × Request)
  requests : List Request
  origins : List Nat

/-- A connection that has just opened. -/
def Loop.fresh : Loop :=
  { socket := Socket.fresh, arrivals := 0, waiting := [], requests := [], origins := [] }

/-- What can happen on a connection: a frame arrives, or the remote call of the suspended
handler call at a position of the waiting list settles. -/
inductive Occurrence where
  | frame (data : Parsed) : Occurrence
  | settled (slot : Nat) (res : FetchResult) : Occurrence

/-- One turn of the event loop. A frame runs the handler at once, up to its suspension; the
emitter does not wait for the promise the handler returns. A settled remote call runs the rest
of that handler call. -/
def step (cfg : Config) (s : Loop) : Occurrence → Loop
  | Occurrence.frame data =>
    match start cfg s.socket data with
    | (socket1, Progress.awaiting req) =>
      { s with socket := socket1, arrivals := s.arrivals + 1,
               waiting := s.waiting ++ [(s.arrivals, req)],
               requests := s.requests ++ [req] }
    | (socket1, _) => { s with socket := socket1, arrivals := s.arrivals + 1 }
  | Occurrence.settled slot res =>
    match s.waiting[slot]? with
    | none => s
    | some (arrival, _) =>
      let socket1 := resume s.socket res
      { s with socket := socket1,
               waiting := s.waiting.eraseIdx slot,
               origins := s.origins ++
                 List.replicate (socket1.sent.length - s.socket.sent.length) arrival }

/-- A run of the event loop. -/
def exec (cfg : Config) (s : Loop) (trace : List Occurrence) : Loop :=
  trace.foldl (step cfg) s

/-- The frames of a trace, in arrival order. -/
def framesOf : List Occurrence → List Parsed
  | [] => []
  | Occurrence.frame data :: rest => data :: framesOf rest
  | Occurrence.settled _ _ :: rest => framesOf rest

/-- A trace with its settlements left out: the frames alone, in arrival order. -/
def framesOnly (trace : List Occurrence) : List Occurrence :=
  (framesOf trace).map Occurrence.frame

/-- A trace in which each frame arrives only after the handling of the previous one is over:
every frame is followed at once by the settling of its remote call, if it made one. -/
def serialTrace : List (Parsed × FetchResult) → List Occurrence
  | [] => []
  | (data, res) :: rest =>
    Occurrence.frame data :: Occurrence.settled 0 res :: serialTrace rest

/-- The frames handled one after the other, each call run to its end before the next. -/
def handleAll (cfg : Config) (socket : Socket) : List (Parsed × FetchResult) → Socket
  | [] => socket
  | (data, res) :: rest => handleAll cfg (handleMessage cfg socket data res).socket rest

/-- Two connections agree on what the first parts of the handler calls have done: the call
identifier, the requests issued, the number of frames. -/
def SameArrivals (s t : Loop) : Prop :=
  s.socket.callSid = t.socket.callSid ∧ s.requests = t.requests ∧ s.arrivals = t.arrivals

/-- What a serial run maintains: no handler call is suspended between two frames, and the
sent messages are in the order of arrival of the frames that caused them. -/
def Quiet (s : Loop) : Prop :=
  s.waiting = [] ∧ s.origins.Pairwise (fun i j => i ≤ j) ∧ ∀ i ∈ s.origins, i < s.arrivals

/-! ## The words of the protocol -/

/-- A `setup` event of the inbound protocol, whose table gives `callSid` as a string: an
object whose `type` is the text `setup` and whose `callSid` is a text. -/
def IsSetupEvent (message : Json) (callSid : String) : Prop :=
  getMember (some message) "type" = some (some (Json.str "setup")) ∧
  getMember (some message) "callSid" = some (some (Json.str callSid))

/-- A `prompt` event of the inbound protocol, whose table gives `voicePrompt` as a string: an
object whose `type` is the text `prompt` and whose `voicePrompt` is a text. -/
def IsPromptEvent (message : Json) (voicePrompt : String) : Prop :=
  getMember (some message) "type" = some (some (Json.str "prompt")) ∧
  getMember (some message) "voicePrompt" = some (some (Json.str voicePrompt))

/-- One step along a path in a body: a named member, or the first element. -/
inductive Access where
  | member (key : String) : Access
  | first : Access

/-- One step of a read, as the program performs it. -/
def access (v : JsVal) : Access → Option JsVal
  | Access.member key => getMember v key
  | Access.first => getIndex0 v

/-- The node of a body at a path, in the sense of the specification: `none` when the body has
no node there. -/
def nodeAt : JsVal → List Access → JsVal
  | v, [] => v
  | v, a :: rest =>
    match access v a with
    | some (some x) => nodeAt (some x) rest
    | _ => none

/-- The path `outputs[0].outputs[0].results.message`. -/
def messagePath : List Access :=
  [Access.member "outputs", Access.first, Access.member "outputs", Access.first,
   Access.member "results", Access.member "message"]

/-- The path `outputs[0].outputs[0].results.message.text`. -/
def textPath : List Access := messagePath ++ [Access.member "text"]

/-- A chain of reads as the program performs it: `none` as soon as one of them raises. -/
def readPath : JsVal → List Access → Option JsVal
  | v, [] => some v
  | v, a :: rest => access v a >>= fun w => readPath w rest

/-! ## Sample values -/

/-- A configuration with both constants set. -/
def sampleConfig : Config := { langflowApiKey := some "key", langflowFlowId := some "flow" }

/-- The frame `{"type":"setup","callSid":"CA123"}`. -/
def setupCA123 : Json := Json.obj [("type", Json.str "setup"), ("callSid", Json.str "CA123")]

/-- The frame `{"type":"prompt","voicePrompt":"hello"}`. -/
def promptHello : Json :=
  Json.obj [("type", Json.str "prompt"), ("voicePrompt", Json.str "hello")]

/-- The body `{"outputs":[{"outputs":[{"results":{"message":{"text": t}}}]}]}`. -/
def replyBody (t : Json) : Json :=
  Json.obj [("outputs", Json.arr [Json.obj [("outputs", Json.arr [Json.obj
    [("results", Json.obj [("message", Json.obj [("text", t)])])]])]])]

/-- The frame `{"type":"prompt","voicePrompt":"goodbye"}`. -/
def promptGoodbye : Json :=
  Json.obj [("type", Json.str "prompt"), ("voicePrompt", Json.str "goodbye")]

/-- A reply text that is an object with an own property `toString`. -/
def oddText : Json := Json.obj [("toString", Json.num 1)]

/-! ## Lemmas on reads -/

theorem access_undefined (a : Access) : access none a = none := by
  cases a <;> rfl

theorem readPath_undefined (a : Access) (rest : List Access) :
    readPath none (a :: rest) = none := by
  simp [readPath, access_undefined]

theorem readOutputText_eq_readPath (body : Json) :
    readOutputText body = readPath (some body) textPath := by
  simp [readOutputText, readPath, textPath, messagePath, access]

theorem nodeAt_undefined (p : List Access) : nodeAt none p = none := by
  cases p with
  | nil => rfl
  | cons a rest => simp [nodeAt, access_undefined]

theorem nodeAt_append (v : JsVal) (p q : List Access) :
    nodeAt v (p ++ q) = nodeAt (nodeAt v p) q := by
  induction p generalizing v with
  | nil => rfl
  | cons a rest ih =>
    simp only [List.cons_append, nodeAt]
    rcases h : access v a with _ | _ | x
    · simp [nodeAt_undefined]
    · simp [nodeAt_undefined]
    · simpa using ih (some x)

/-- A read through a place where the body has no node raises. -/
theorem readPath_of_nodeAt_none (v : JsVal) (p : List Access) (a : Access)
    (rest : List Access) (h : nodeAt v p = none) : readPath v (p ++ a :: rest) = none := by
  induction p generalizing v with
  | nil =>
    simp only [nodeAt] at h
    subst h
    exact readPath_undefined a rest
  | cons b p ih =>
    simp only [List.cons_append, readPath]
    rcases hb : access v b with _ | _ | x
    · rfl
    · cases p <;> simp [readPath, access_undefined]
    · simp only [nodeAt, hb] at h
      simpa using ih (some x) h

/-- A read that ends on a node of the body gives that node. -/
theorem readPath_of_nodeAt_some (v : JsVal) (p : List Access) (t : Json)
    (h : nodeAt v p = some t) : readPath v p = some (some t) := by
  induction p generalizing v with
  | nil => simpa [nodeAt, readPath] using h
  | cons b p ih =>
    simp only [readPath]
    rcases hb : access v b with _ | _ | x
    · simp [nodeAt, hb] at h
    · simp [nodeAt, hb] at h
    · simp only [nodeAt, hb] at h
      simpa using ih (some x) h

theorem readOutputText_of_lacking (body : Json) (p : List Access)
    (hp : p <+: messagePath) (h : nodeAt (some body) p = none) :
    readOutputText body = none := by
  obtain ⟨q, hq⟩ := hp
  have hm : nodeAt (some body) messagePath = none := by
    rw [← hq, nodeAt_append, h, nodeAt_undefined]
  rw [readOutputText_eq_readPath]
  exact readPath_of_nodeAt_none (some body) messagePath (Access.member "text") [] hm

/-! ## Lemmas on the tunnel host -/

theorem stripScheme_https (rest : List Char) : stripScheme (httpsScheme ++ rest) = rest := by
  have h : httpsScheme.isPrefixOf (httpsScheme ++ rest) = true := by
    rw [List.isPrefixOf_iff_prefix]
    exact List.prefix_append _ _
  simp [stripScheme, h]

theorem stripScheme_http (rest : List Char) : stripScheme (httpScheme ++ rest) = rest := by
  have h1 : httpsScheme.isPrefixOf (httpScheme ++ rest) = false := by
    cases rest <;> simp [httpsScheme, httpScheme, List.isPrefixOf]
  have h2 : httpScheme.isPrefixOf (httpScheme ++ rest) = true := by
    rw [List.isPrefixOf_iff_prefix]
    exact List.prefix_append _ _
  simp [stripScheme, h1, h2]

theorem tunnelUrl_https (host : String) : tunnelUrl ("https://" ++ host) = host := by
  show String.mk (stripScheme (httpsScheme ++ host.data)) = host
  rw [stripScheme_https]

theorem tunnelUrl_http (host : String) : tunnelUrl ("http://" ++ host) = host := by
  show String.mk (stripScheme (httpScheme ++ host.data)) = host
  rw [stripScheme_http]

theorem tunnelUrl_bare (domain : String)
    (h1 : ∀ rest : String, domain ≠ "https://" ++ rest)
    (h2 : ∀ rest : String, domain ≠ "http://" ++ rest) : tunnelUrl domain = domain := by
  have e1 : httpsScheme.isPrefixOf domain.data = false := by
    rw [Bool.eq_false_iff]
    intro hp
    rw [List.isPrefixOf_iff_prefix] at hp
    obtain ⟨t, ht⟩ := hp
    exact h1 (String.mk t) (by
      show domain = String.mk (httpsScheme ++ t)
      rw [ht])
  have e2 : httpScheme.isPrefixOf domain.data = false := by
    rw [Bool.eq_false_iff]
    intro hp
    rw [List.isPrefixOf_iff_prefix] at hp
    obtain ⟨t, ht⟩ := hp
    exact h2 (String.mk t) (by
      show domain = String.mk (httpScheme ++ t)
      rw [ht])
  simp [tunnelUrl, stripScheme, e1, e2]

/-! ## Lemmas on the handler -/

theorem start_prompt (cfg : Config) (socket : Socket) (message : Json) (voicePrompt : String)
    (hev : IsPromptEvent message voicePrompt) :
    start cfg socket (Parsed.value message) =
      (socket, Progress.awaiting (buildRequest cfg socket (some (Json.str voicePrompt)))) := by
  simp [start, hev.1, hev.2, interpolationThrows, Json.toStringThrows]

theorem handleMessage_prompt (cfg : Config) (socket : Socket) (message : Json)
    (voicePrompt : String) (hev : IsPromptEvent message voicePrompt) (res : FetchResult) :
    handleMessage cfg socket (Parsed.value message) res =
      { socket := resume socket res
        request := some (buildRequest cfg socket (some (Json.str voicePrompt)))
        raised := false } := by
  simp [handleMessage, start_prompt cfg socket message voicePrompt hev]

theorem resume_of_failure_status (socket : Socket) (status : Nat) (body : Parsed)
    (h : isOk status = false) :
    resume socket (FetchResult.response status body) = sendErrorAndEnd socket langflowApology := by
  simp [resume, tryBlock, h]

theorem resume_of_rejected (socket : Socket) :
    resume socket FetchResult.rejected = sendErrorAndEnd socket genericApology := by
  simp [resume, tryBlock]

theorem resume_of_bodyFailed (socket : Socket) (status : Nat) :
    resume socket (FetchResult.bodyFailed status) = sendErrorAndEnd socket genericApology := by
  simp [resume, tryBlock]

theorem resume_of_invalid_body (socket : Socket) (status : Nat) (h : isOk status = true) :
    resume socket (FetchResult.response status Parsed.syntaxError) =
      sendErrorAndEnd socket genericApology := by
  simp [resume, tryBlock, h]

theorem resume_of_failed_read (socket : Socket) (status : Nat) (body : Json)
    (h : isOk status = true) (hread : readOutputText body = none) :
    resume socket (FetchResult.response status (Parsed.value body)) =
      sendErrorAndEnd socket genericApology := by
  simp [resume, tryBlock, h, hread]

theorem resume_of_reply (socket : Socket) (status : Nat) (body : Json) (text : JsVal)
    (h : isOk status = true) (hread : readOutputText body = some text)
    (hstr : interpolationThrows text = false) :
    resume socket (FetchResult.response status (Parsed.value body)) =
      sendResponse socket text := by
  simp [resume, tryBlock, h, hread, hstr]

theorem resume_callSid (socket : Socket) (res : FetchResult) :
    (resume socket res).callSid = socket.callSid := by
  rcases res with _ | _ | ⟨status, body⟩
  · rfl
  · rfl
  · by_cases hok : isOk status = true
    · rcases body with _ | v
      · simp [resume, tryBlock, hok, sendErrorAndEnd]
      · rcases hread : readOutputText v with _ | text
        · simp [resume, tryBlock, hok, hread, sendErrorAndEnd]
        · by_cases hstr : interpolationThrows text = true
          · simp [resume, tryBlock, hok, hread, hstr, sendErrorAndEnd, sendResponse]
          · simp [resume, tryBlock, hok, hread, hstr, sendResponse]
    · simp [resume, tryBlock, hok, sendErrorAndEnd]

/-- The second part of the handler always sends something. -/
theorem resume_sends (socket : Socket) (res : FetchResult) :
    socket.sent.length + 1 ≤ (resume socket res).sent.length := by
  rcases res with _ | _ | ⟨status, body⟩
  · simp [resume, tryBlock, sendErrorAndEnd]
  · simp [resume, tryBlock, sendErrorAndEnd]
  · by_cases hok : isOk status = true
    · rcases body with _ | v
      · simp [resume, tryBlock, hok, sendErrorAndEnd]
      · rcases hread : readOutputText v with _ | text
        · simp [resume, tryBlock, hok, hread, sendErrorAndEnd]
        · by_cases hstr : interpolationThrows text = true
          · simp [resume, tryBlock, hok, hread, hstr, sendErrorAndEnd, sendResponse]
          · simp [resume, tryBlock, hok, hread, hstr, sendResponse]
    · simp [resume, tryBlock, hok, sendErrorAndEnd]

/-- A frame that is neither a `setup` nor a `prompt` message leaves the socket as it is and
issues no request. -/
theorem handleMessage_other (cfg : Config) (socket : Socket) (data : Parsed)
    (res : FetchResult)
    (hsetup : ∀ m, data = Parsed.value m →
      getMember (some m) "type" ≠ some (some (Json.str "setup")))
    (hprompt : ∀ m, data = Parsed.value m →
      getMember (some m) "type" ≠ some (some (Json.str "prompt"))) :
    (handleMessage cfg socket data res).socket = socket ∧
    (handleMessage cfg socket data res).request = none := by
  rcases data with _ | m
  · exact ⟨rfl, rfl⟩
  · have h1 := hsetup m rfl
    have h2 := hprompt m rfl
    rcases hty : getMember (some m) "type" with _ | _ | ty
    · simp [handleMessage, start, hty]
    · simp [handleMessage, start, hty]
    · cases ty with
      | str ty =>
        have e1 : ¬ ty = "setup" := fun e => h1 (by rw [hty, e])
        have e2 : ¬ ty = "prompt" := fun e => h2 (by rw [hty, e])
        by_cases e3 : ty = "error"
        · rcases hdesc : getMember (some m) "description" with _ | description
          · simp [handleMessage, start, hty, e3, hdesc]
          · by_cases hd : interpolationThrows description = true
            · simp [handleMessage, start, hty, e3, hdesc, hd]
            · simp [handleMessage, start, hty, e3, hdesc, hd]
        · simp [handleMessage, start, hty, e1, e2, e3]
      | null => simp [handleMessage, start, hty]
      | bool b => simp [handleMessage, start, hty]
      | num n => simp [handleMessage, start, hty]
      | arr items => simp [handleMessage, start, hty]
      | obj props => simp [handleMessage, start, hty]

/-- A frame that is not a `setup` message leaves the call identifier as it is. -/
theorem handleMessage_callSid (cfg : Config) (socket : Socket) (data : Parsed)
    (res : FetchResult)
    (hsetup : ∀ m, data = Parsed.value m →
      getMember (some m) "type" ≠ some (some (Json.str "setup"))) :
    (handleMessage cfg socket data res).socket.callSid = socket.callSid := by
  rcases data with _ | m
  · rfl
  · have h1 := hsetup m rfl
    by_cases h2 : getMember (some m) "type" = some (some (Json.str "prompt"))
    · rcases hvp : getMember (some m) "voicePrompt" with _ | voicePrompt
      · simp [handleMessage, start, h2, hvp]
      · by_cases hv : interpolationThrows voicePrompt = true
        · simp [handleMessage, start, h2, hvp, hv]
        · simp [handleMessage, start, h2, hvp, hv, resume_callSid]
    · rw [(handleMessage_other cfg socket (Parsed.value m) res
        (fun m1 hm => by cases hm; exact h1) (fun m1 hm => by cases hm; exact h2)).1]

theorem handleAll_callSid (cfg : Config) (socket : Socket)
    (events : List (Parsed × FetchResult))
    (h : ∀ e ∈ events, ∀ m, e.1 = Parsed.value m →
      getMember (some m) "type" ≠ some (some (Json.str "setup"))) :
    (handleAll cfg socket events).callSid = socket.callSid := by
  induction events generalizing socket with
  | nil => rfl
  | cons e rest ih =>
    obtain ⟨data, res⟩ := e
    simp only [handleAll]
    rw [ih _ (fun e he => h e (List.mem_cons_of_mem _ he))]
    exact handleMessage_callSid cfg socket data res (h (data, res) (List.mem_cons_self _ _))

theorem handleMessage_setup (cfg : Config) (socket : Socket) (message : Json)
    (callSid : String) (hev : IsSetupEvent message callSid) (res : FetchResult) :
    handleMessage cfg socket (Parsed.value message) res =
      { socket := { socket with callSid := some (Json.str callSid) }
        request := none
        raised := false } := by
  simp [handleMessage, start, hev.1, hev.2, interpolationThrows, Json.toStringThrows]

/-! ## Lemmas on the event loop -/

/-- The first part of the handler reads the socket only through its call identifier, and does
not send. -/
theorem start_eq (cfg : Config) (socket : Socket) (data : Parsed) :
    start cfg socket data =
      ({ callSid := (start cfg { callSid := socket.callSid, sent := [] } data).1.callSid
         sent := socket.sent },
       (start cfg { callSid := socket.callSid, sent := [] } data).2) := by
  rcases data with _ | m
  · rfl
  · rcases hty : getMember (some m) "type" with _ | _ | ty
    · simp [start, hty]
    · simp [start, hty]
    · cases ty with
      | str ty =>
        by_cases e1 : ty = "setup"
        · rcases hc : getMember (some m) "callSid" with _ | callSid
          · simp [start, hty, e1, hc]
          · by_cases hi : interpolationThrows callSid = true
            · simp [start, hty, e1, hc, hi]
            · simp [start, hty, e1, hc, hi]
        · by_cases e2 : ty = "prompt"
          · rcases hv : getMember (some m) "voicePrompt" with _ | voicePrompt
            · simp [start, hty, e2, hv]
            · by_cases hi : interpolationThrows voicePrompt = true
              · simp [start, hty, e2, hv, hi]
              · simp [start, hty, e2, hv, hi, buildRequest]
          · by_cases e3 : ty = "error"
            · rcases hd : getMember (some m) "description" with _ | description
              · simp [start, hty, e3, hd]
              · by_cases hi : interpolationThrows description = true
                · simp [start, hty, e3, hd, hi]
                · simp [start, hty, e3, hd, hi]
            · simp [start, hty, e1, e2, e3]
      | null => simp [start, hty]
      | bool b => simp [start, hty]
      | num n => simp [start, hty]
      | arr items => simp [start, hty]
      | obj props => simp [start, hty]

theorem start_congr (cfg : Config) (a b : Socket) (data : Parsed)
    (h : a.callSid = b.callSid) :
    (start cfg a data).1.callSid = (start cfg b data).1.callSid ∧
    (start cfg a data).2 = (start cfg b data).2 := by
  rw [start_eq cfg a data, start_eq cfg b data, h]
  exact ⟨rfl, rfl⟩

theorem sameArrivals_frame (cfg : Config) (s t : Loop) (data : Parsed)
    (h : SameArrivals s t) :
    SameArrivals (step cfg s (Occurrence.frame data)) (step cfg t (Occurrence.frame data)) := by
  obtain ⟨h1, h2, h3⟩ := h
  have hc := start_congr cfg s.socket t.socket data h1
  rcases hs : start cfg s.socket data with ⟨s1, ps⟩
  rcases ht : start cfg t.socket data with ⟨t1, pt⟩
  rw [hs, ht] at hc
  obtain ⟨hc1, hc2⟩ := hc
  simp only at hc1 hc2
  subst hc2
  cases ps <;> simp [step, hs, ht, SameArrivals, hc1, h2, h3]

theorem sameArrivals_settled (cfg : Config) (s t : Loop) (slot : Nat) (res : FetchResult)
    (h : SameArrivals s t) : SameArrivals (step cfg s (Occurrence.settled slot res)) t := by
  obtain ⟨h1, h2, h3⟩ := h
  rcases hw : s.waiting[slot]? with _ | ⟨arrival, req⟩
  · simp [step, hw, SameArrivals, h1, h2, h3]
  · simp [step, hw, SameArrivals, h1, h2, h3, resume_callSid]

theorem sameArrivals_exec (cfg : Config) (trace : List Occurrence) (s t : Loop)
    (h : SameArrivals s t) :
    SameArrivals (exec cfg s trace) (exec cfg t (framesOnly trace)) := by
  induction trace generalizing s t with
  | nil => exact h
  | cons o rest ih =>
    cases o with
    | frame data =>
      exact ih _ _ (sameArrivals_frame cfg s t data h)
    | settled slot res =>
      exact ih _ _ (sameArrivals_settled cfg s t slot res h)

theorem serial_turn (cfg : Config) (s : Loop) (data : Parsed) (res : FetchResult)
    (h : Quiet s) :
    Quiet (step cfg (step cfg s (Occurrence.frame data)) (Occurrence.settled 0 res)) ∧
    (step cfg (step cfg s (Occurrence.frame data)) (Occurrence.settled 0 res)).socket =
      (handleMessage cfg s.socket data res).socket := by
  obtain ⟨hw, hsorted, hbound⟩ := h
  rcases hs : start cfg s.socket data with ⟨s1, prog⟩
  cases prog with
  | fulfilled =>
    simp only [step, hs, hw, handleMessage, Quiet, List.getElem?_nil]
    exact ⟨⟨trivial, hsorted, fun i hi => Nat.lt_succ_of_lt (hbound i hi)⟩, trivial⟩
  | rejected =>
    simp only [step, hs, hw, handleMessage, Quiet, List.getElem?_nil]
    exact ⟨⟨trivial, hsorted, fun i hi => Nat.lt_succ_of_lt (hbound i hi)⟩, trivial⟩
  | awaiting req =>
    simp only [step, hs, hw, handleMessage, Quiet, List.nil_append, List.getElem?_cons_zero,
      List.eraseIdx_cons_zero, true_and, and_true]
    refine ⟨?_, ?_⟩
    · rw [List.pairwise_append]
      refine ⟨hsorted, ?_, ?_⟩
      · simp
      · intro i hi j hj
        rw [List.mem_replicate] at hj
        rw [hj.2]
        exact Nat.le_of_lt (hbound i hi)
    · intro i hi
      rw [List.mem_append, List.mem_replicate] at hi
      rcases hi with hi | hi
      · exact Nat.lt_succ_of_lt (hbound i hi)
      · rw [hi.2]
        exact Nat.lt_succ_self _

theorem serial_exec (cfg : Config) (events : List (Parsed × FetchResult)) (s : Loop)
    (h : Quiet s) :
    Quiet (exec cfg s (serialTrace events)) ∧
    (exec cfg s (serialTrace events)).socket = handleAll cfg s.socket events := by
  induction events generalizing s with
  | nil => exact ⟨h, rfl⟩
  | cons e rest ih =>
    obtain ⟨data, res⟩ := e
    have ht := serial_turn cfg s data res h
    have hr := ih _ ht.1
    simp only [serialTrace, exec, List.foldl_cons, handleAll] at hr ⊢
    rw [← ht.2]
    exact hr

/-! ## The claims -/

/-- C1, as stated, fails: for the prompt event `promptHello` and a remote response of status
200 whose body has the object `oddText` at `outputs[0].outputs[0].results.message.text`, the
handler sends three messages, not one: the reply, then (the log line after the send raising on
the conversion of that object to a string, inside the `try` block) the apology and the end
message. -/
theorem C1_counterexample :
    IsPromptEvent promptHello "hello" ∧ isOk 200 = true ∧
    nodeAt (some (replyBody oddText)) textPath = some oddText ∧
    (handleMessage sampleConfig Socket.fresh (Parsed.value promptHello)
        (FetchResult.response 200 (Parsed.value (replyBody oddText)))).socket.sent =
      [Outbound.textMessage (some oddText) false,
       Outbound.textMessage (some (Json.str "I'm sorry, an application error has occurred.")) false,
       Outbound.endMessage] :=
  ⟨⟨rfl, rfl⟩, rfl, rfl, rfl⟩

/-- C1, amended: for every prompt event and every remote response with a 2xx status whose JSON
body has at `outputs[0].outputs[0].results.message.text` a value `t` that converts to a string
(every text, number, boolean and null does), the handler sends exactly one message, the text
message with token `t` and `last` false, sends no end message, and raises nothing. -/
theorem C1_reply_on_success (cfg : Config) (socket : Socket) (message : Json)
    (voicePrompt : String) (status : Nat) (body t : Json)
    (hev : IsPromptEvent message voicePrompt) (hok : isOk status = true)
    (hnode : nodeAt (some body) textPath = some t) (hstr : t.toStringThrows = false) :
    (handleMessage cfg socket (Parsed.value message)
        (FetchResult.response status (Parsed.value body))).socket.sent =
      socket.sent ++ [Outbound.textMessage (some t) false] ∧
    (handleMessage cfg socket (Parsed.value message)
        (FetchResult.response status (Parsed.value body))).raised = false := by
  have hread : readOutputText body = some (some t) := by
    rw [readOutputText_eq_readPath]
    exact readPath_of_nodeAt_some (some body) textPath t hnode
  rw [handleMessage_prompt cfg socket message voicePrompt hev,
    resume_of_reply socket status body (some t) hok hread hstr]
  exact ⟨rfl, rfl⟩

/-- The amended C1 at the scenario of the specification: prompt `hello`, status 200, reply
`hi there`. -/
theorem C1_reply_on_success_witness :
    (handleMessage sampleConfig Socket.fresh (Parsed.value promptHello)
        (FetchResult.response 200 (Parsed.value (replyBody (Json.str "hi there"))))).socket.sent =
      Socket.fresh.sent ++ [Outbound.textMessage (some (Json.str "hi there")) false] ∧
    (handleMessage sampleConfig Socket.fresh (Parsed.value promptHello)
        (FetchResult.response 200 (Parsed.value (replyBody (Json.str "hi there"))))).raised = false :=
  C1_reply_on_success sampleConfig Socket.fresh promptHello "hello" 200
    (replyBody (Json.str "hi there")) (Json.str "hi there") ⟨rfl, rfl⟩ rfl rfl rfl

/-- C2, as stated, fails: for the prompt event `promptHello` and a remote response of status
500 whose body cannot be read (`fetchResponse.text()` at line 68 rejects, inside the `try`
block), the handler sends the apology of the `catch` block, not the one naming the Langflow
API. -/
theorem C2_counterexample :
    IsPromptEvent promptHello "hello" ∧ isOk 500 = false ∧
    (handleMessage sampleConfig Socket.fresh (Parsed.value promptHello)
        (FetchResult.bodyFailed 500)).socket.sent =
      [Outbound.textMessage (some (Json.str "I'm sorry, an application error has occurred."))
         false,
       Outbound.endMessage] ∧
    (handleMessage sampleConfig Socket.fresh (Parsed.value promptHello)
        (FetchResult.bodyFailed 500)).socket.sent ≠
      [Outbound.textMessage
         (some (Json.str "I'm sorry, an application error has occurred with the Langflow API."))
         false,
       Outbound.endMessage] := by
  refine ⟨⟨rfl, rfl⟩, rfl, rfl, ?_⟩
  have h : (handleMessage sampleConfig Socket.fresh (Parsed.value promptHello)
      (FetchResult.bodyFailed 500)).socket.sent =
      [Outbound.textMessage (some (Json.str genericApology)) false, Outbound.endMessage] := rfl
  rw [h]
  simp [genericApology]

/-- C2, amended: for every prompt event and every remote response with a status outside 200 to
299, the handler sends exactly two messages and raises nothing. When the body of the response
is read, whatever it is, they are the apology naming the Langflow API, with `last` false, and
then the end message; the body is not parsed as a reply and plays no part. When the reading of
the body fails, they are the apology of the `catch` block, with `last` false, and then the end
message. -/
theorem C2_apology_on_failure_status (cfg : Config) (socket : Socket) (message : Json)
    (voicePrompt : String) (status : Nat)
    (hev : IsPromptEvent message voicePrompt) (hbad : isOk status = false) :
    (∀ body : Parsed,
      (handleMessage cfg socket (Parsed.value message)
          (FetchResult.response status body)).socket.sent =
        socket.sent ++
          [Outbound.textMessage
             (some (Json.str
               "I'm sorry, an application error has occurred with the Langflow API."))
             false,
           Outbound.endMessage] ∧
      (handleMessage cfg socket (Parsed.value message)
          (FetchResult.response status body)).raised = false) ∧
    (handleMessage cfg socket (Parsed.value message)
        (FetchResult.bodyFailed status)).socket.sent =
      socket.sent ++
        [Outbound.textMessage (some (Json.str "I'm sorry, an application error has occurred."))
           false,
         Outbound.endMessage] ∧
    (handleMessage cfg socket (Parsed.value message)
        (FetchResult.bodyFailed status)).raised = false := by
  refine ⟨fun body => ?_, ?_⟩
  · rw [handleMessage_prompt cfg socket message voicePrompt hev,
      resume_of_failure_status socket status body hbad]
    exact ⟨rfl, rfl⟩
  · rw [handleMessage_prompt cfg socket message voicePrompt hev, resume_of_bodyFailed]
    exact ⟨rfl, rfl⟩

/-- The amended C2 at the scenario of the specification: prompt `hello`, status 500, the body
`"server error"`. -/
theorem C2_apology_on_failure_status_witness :
    (handleMessage sampleConfig Socket.fresh (Parsed.value promptHello)
        (FetchResult.response 500 (Parsed.value (Json.str "server error")))).socket.sent =
      Socket.fresh.sent ++
        [Outbound.textMessage
           (some (Json.str "I'm sorry, an application error has occurred with the Langflow API."))
           false,
         Outbound.endMessage] ∧
    (handleMessage sampleConfig Socket.fresh (Parsed.value promptHello)
        (FetchResult.response 500 (Parsed.value (Json.str "server error")))).raised = false :=
  (C2_apology_on_failure_status sampleConfig Socket.fresh promptHello "hello" 500
    ⟨rfl, rfl⟩ rfl).1 (Parsed.value (Json.str "server error"))

/-- C3: for every setup event, once it is handled the call identifier of the connection is
the `callSid` of the event and nothing has been sent or requested; and after any further
frames none of which is a setup message, each handled to its end, the request issued for a
prompt event carries that `callSid` as `session_id`, the `voicePrompt` of the event as
`input_value`, and `chat` as `output_type` and as `input_type`. -/
theorem C3_setup_fixes_session_id (cfg : Config) (socket : Socket) (setup prompt : Json)
    (callSid voicePrompt : String) (res0 res : FetchResult)
    (between : List (Parsed × FetchResult))
    (hsetup : IsSetupEvent setup callSid)
    (hbetween : ∀ e ∈ between, ∀ m, e.1 = Parsed.value m →
      getMember (some m) "type" ≠ some (some (Json.str "setup")))
    (hprompt : IsPromptEvent prompt voicePrompt) :
    (handleMessage cfg socket (Parsed.value setup) res0).socket.callSid =
      some (Json.str callSid) ∧
    (handleMessage cfg socket (Parsed.value setup) res0).socket.sent = socket.sent ∧
    (handleMessage cfg socket (Parsed.value setup) res0).request = none ∧
    ((handleMessage cfg
        (handleAll cfg (handleMessage cfg socket (Parsed.value setup) res0).socket between)
        (Parsed.value prompt) res).request.map Request.body) =
      some { input_value := some (Json.str voicePrompt)
             output_type := "chat"
             input_type := "chat"
             session_id := some (Json.str callSid) } := by
  rw [handleMessage_setup cfg socket setup callSid hsetup res0]
  refine ⟨rfl, rfl, rfl, ?_⟩
  rw [handleMessage_prompt cfg _ prompt voicePrompt hprompt res]
  simp only [Option.map, buildRequest]
  rw [handleAll_callSid cfg _ between hbetween]

/-- C3 at the scenario of the specification: setup with `CA123`, then a prompt whose remote
call fails, then the prompt `hello`. -/
theorem C3_setup_fixes_session_id_witness :
    (handleMessage sampleConfig Socket.fresh (Parsed.value setupCA123)
        FetchResult.rejected).socket.callSid = some (Json.str "CA123") ∧
    (handleMessage sampleConfig Socket.fresh (Parsed.value setupCA123)
        FetchResult.rejected).socket.sent = Socket.fresh.sent ∧
    (handleMessage sampleConfig Socket.fresh (Parsed.value setupCA123)
        FetchResult.rejected).request = none ∧
    ((handleMessage sampleConfig
        (handleAll sampleConfig
          (handleMessage sampleConfig Socket.fresh (Parsed.value setupCA123)
            FetchResult.rejected).socket
          [(Parsed.value promptHello, FetchResult.rejected)])
        (Parsed.value promptHello)
        (FetchResult.response 500 Parsed.syntaxError)).request.map Request.body) =
      some { input_value := some (Json.str "hello")
             output_type := "chat"
             input_type := "chat"
             session_id := some (Json.str "CA123") } :=
  C3_setup_fixes_session_id sampleConfig Socket.fresh setupCA123 promptHello "CA123" "hello"
    FetchResult.rejected (FetchResult.response 500 Parsed.syntaxError)
    [(Parsed.value promptHello, FetchResult.rejected)] ⟨rfl, rfl⟩
    (by
      intro e he m hm
      simp only [List.mem_singleton] at he
      subst he
      simp only [promptHello, Parsed.value.injEq] at hm
      subst hm
      simp [getMember, lookupProp])
    ⟨rfl, rfl⟩

/-- C4: for every inbound JSON object whose `type` is neither `setup` nor `prompt` (an
`error` event, any other type, no `type` at all), the handler sends nothing, issues no remote
request and leaves the call identifier as it is: the socket is unchanged. -/
theorem C4_other_events_have_no_effect (cfg : Config) (socket : Socket)
    (props : List (String × Json)) (res : FetchResult)
    (hsetup : lookupProp "type" props ≠ some (Json.str "setup"))
    (hprompt : lookupProp "type" props ≠ some (Json.str "prompt")) :
    (handleMessage cfg socket (Parsed.value (Json.obj props)) res).socket.sent = socket.sent ∧
    (handleMessage cfg socket (Parsed.value (Json.obj props)) res).request = none ∧
    (handleMessage cfg socket (Parsed.value (Json.obj props)) res).socket.callSid =
      socket.callSid := by
  have h := handleMessage_other cfg socket (Parsed.value (Json.obj props)) res
    (by
      intro m hm
      simp only [Parsed.value.injEq] at hm
      subst hm
      simpa [getMember] using hsetup)
    (by
      intro m hm
      simp only [Parsed.value.injEq] at hm
      subst hm
      simpa [getMember] using hprompt)
  rw [h.1]
  exact ⟨rfl, h.2, rfl⟩

/-- C4 at the scenario of the specification, the frame `{"type":"bogus"}`, on a connection
whose call identifier is set. -/
theorem C4_other_events_have_no_effect_witness :
    (handleMessage sampleConfig { callSid := some (Json.str "CA123"), sent := [] }
        (Parsed.value (Json.obj [("type", Json.str "bogus")]))
        FetchResult.rejected).socket.sent = [] ∧
    (handleMessage sampleConfig { callSid := some (Json.str "CA123"), sent := [] }
        (Parsed.value (Json.obj [("type", Json.str "bogus")]))
        FetchResult.rejected).request = none ∧
    (handleMessage sampleConfig { callSid := some (Json.str "CA123"), sent := [] }
        (Parsed.value (Json.obj [("type", Json.str "bogus")]))
        FetchResult.rejected).socket.callSid = some (Json.str "CA123") :=
  C4_other_events_have_no_effect sampleConfig { callSid := some (Json.str "CA123"), sent := [] }
    [("type", Json.str "bogus")] FetchResult.rejected
    (by simp [lookupProp]) (by simp [lookupProp])

/-- C5, as stated, fails: with `TUNNEL_DOMAIN` set to `https://https://example.com` the host
kept after the replacement is `https://example.com`, and the url of the relay directive has
`https://` after its `wss://` start. -/
theorem C5_counterexample :
    tunnelUrl "https://https://example.com" = "https://example.com" ∧
    (voice "https://https://example.com").url = "wss://https://example.com/ws" ∧
    ∃ before after : String,
      (voice "https://https://example.com").url = "wss://" ++ before ++ "https://" ++ after :=
  ⟨rfl, rfl, "", "example.com/ws", rfl⟩

/-- C5, amended: for every value of `TUNNEL_DOMAIN`, if `host` is that value with one leading
`https://` or `http://` removed (the value itself when it starts with neither), then the reply
of `POST /voice` has content type `text/xml`, its relay url is exactly `wss://` followed by
`host` and `/ws`, and its welcome greeting is `Ahoy! How can I help?`. Only the leading scheme
is removed; one that occurs further on stays in the url. -/
theorem C5_voice_reply (tunnelDomain host : String)
    (hhost : tunnelDomain = "https://" ++ host ∨ tunnelDomain = "http://" ++ host ∨
      (tunnelDomain = host ∧ (∀ rest : String, tunnelDomain ≠ "https://" ++ rest) ∧
        ∀ rest : String, tunnelDomain ≠ "http://" ++ rest)) :
    voice tunnelDomain =
      { contentType := "text/xml"
        url := "wss://" ++ host ++ "/ws"
        welcomeGreeting := "Ahoy! How can I help?" } := by
  have h : tunnelUrl tunnelDomain = host := by
    rcases hhost with h | h | ⟨h, h1, h2⟩
    · rw [h, tunnelUrl_https]
    · rw [h, tunnelUrl_http]
    · rw [tunnelUrl_bare tunnelDomain h1 h2, h]
  simp only [voice, h]

/-- The amended C5 at `TUNNEL_DOMAIN` set to `https://example.ngrok.app`. -/
theorem C5_voice_reply_witness :
    voice "https://example.ngrok.app" =
      { contentType := "text/xml"
        url := "wss://" ++ "example.ngrok.app" ++ "/ws"
        welcomeGreeting := "Ahoy! How can I help?" } :=
  C5_voice_reply "https://example.ngrok.app" "example.ngrok.app" (Or.inl rfl)

/-- C6, as stated, fails: for the prompt event `promptHello` and a remote response of status
500 the handler sends two messages, not one. -/
theorem C6_counterexample :
    IsPromptEvent promptHello "hello" ∧
    (handleMessage sampleConfig Socket.fresh (Parsed.value promptHello)
        (FetchResult.response 500 (Parsed.value (Json.str "server error")))).socket.sent =
      [Outbound.textMessage
         (some (Json.str "I'm sorry, an application error has occurred with the Langflow API."))
         false,
       Outbound.endMessage] ∧
    (handleMessage sampleConfig Socket.fresh (Parsed.value promptHello)
        (FetchResult.response 500 (Parsed.value (Json.str "server error")))).socket.sent.length
      = 2 :=
  ⟨⟨rfl, rfl⟩, rfl, rfl⟩

/-- C6, amended: for every prompt event the handler sends at least one message, however the
remote call ends; it sends exactly one message when the remote response has a 2xx status and a
body with a reply text at `outputs[0].outputs[0].results.message.text`, and exactly two
messages, an apology and then the end message, when the remote response has another status,
when `fetch` rejects or the reading of the body of a response fails, and when the body of a
2xx response is not valid JSON or lacks a node along
`outputs[0].outputs[0].results.message`. -/
theorem C6_messages_per_prompt (cfg : Config) (socket : Socket) (message : Json)
    (voicePrompt : String) (hev : IsPromptEvent message voicePrompt) (res : FetchResult) :
    socket.sent.length + 1 ≤
      (handleMessage cfg socket (Parsed.value message) res).socket.sent.length ∧
    ((∃ status body text, res = FetchResult.response status (Parsed.value body) ∧
        isOk status = true ∧ nodeAt (some body) textPath = some (Json.str text)) →
      (handleMessage cfg socket (Parsed.value message) res).socket.sent.length =
        socket.sent.length + 1) ∧
    ((res = FetchResult.rejected ∨
      (∃ status, res = FetchResult.bodyFailed status) ∨
      (∃ status body, res = FetchResult.response status body ∧ isOk status = false) ∨
      (∃ status, res = FetchResult.response status Parsed.syntaxError) ∨
      (∃ status body p, res = FetchResult.response status (Parsed.value body) ∧
        p <+: messagePath ∧ nodeAt (some body) p = none)) →
      ∃ apology,
        (handleMessage cfg socket (Parsed.value message) res).socket.sent =
          socket.sent ++ [Outbound.textMessage (some (Json.str apology)) false,
            Outbound.endMessage]) := by
  rw [handleMessage_prompt cfg socket message voicePrompt hev]
  refine ⟨resume_sends socket res, ?_, ?_⟩
  · rintro ⟨status, body, text, rfl, hok, hnode⟩
    have hread : readOutputText body = some (some (Json.str text)) := by
      rw [readOutputText_eq_readPath]
      exact readPath_of_nodeAt_some (some body) textPath (Json.str text) hnode
    rw [resume_of_reply socket status body (some (Json.str text)) hok hread rfl]
    simp [sendResponse]
  · rintro (rfl | ⟨status, rfl⟩ | ⟨status, body, rfl, hbad⟩ | ⟨status, rfl⟩ |
      ⟨status, body, p, rfl, hp, hnone⟩)
    · exact ⟨genericApology, by rw [resume_of_rejected]; rfl⟩
    · exact ⟨genericApology, by rw [resume_of_bodyFailed]; rfl⟩
    · exact ⟨langflowApology, by rw [resume_of_failure_status socket status body hbad]; rfl⟩
    · by_cases hok : isOk status = true
      · exact ⟨genericApology, by rw [resume_of_invalid_body socket status hok]; rfl⟩
      · exact ⟨langflowApology, by
          rw [resume_of_failure_status socket status _ (by simpa using hok)]; rfl⟩
    · by_cases hok : isOk status = true
      · exact ⟨genericApology, by
          rw [resume_of_failed_read socket status body hok
            (readOutputText_of_lacking body p hp hnone)]; rfl⟩
      · exact ⟨langflowApology, by
          rw [resume_of_failure_status socket status _ (by simpa using hok)]; rfl⟩

/-- The amended C6 at the prompt `hello`: one message for the reply `hi there`. -/
theorem C6_messages_per_prompt_witness :
    (handleMessage sampleConfig Socket.fresh (Parsed.value promptHello)
        (FetchResult.response 200
          (Parsed.value (replyBody (Json.str "hi there"))))).socket.sent.length =
      Socket.fresh.sent.length + 1 :=
  (C6_messages_per_prompt sampleConfig Socket.fresh promptHello "hello" ⟨rfl, rfl⟩
    (FetchResult.response 200 (Parsed.value (replyBody (Json.str "hi there"))))).2.1
    ⟨200, replyBody (Json.str "hi there"), "hi there", rfl, rfl, rfl⟩

/-- C7, as stated, fails: for the prompt event `promptHello` the messages sent when `fetch`
rejects differ from those sent on a response of status 500: the apology texts are not the
same. -/
theorem C7_counterexample :
    IsPromptEvent promptHello "hello" ∧
    (handleMessage sampleConfig Socket.fresh (Parsed.value promptHello)
        FetchResult.rejected).socket.sent ≠
    (handleMessage sampleConfig Socket.fresh (Parsed.value promptHello)
        (FetchResult.response 500 (Parsed.value (Json.str "server error")))).socket.sent := by
  refine ⟨⟨rfl, rfl⟩, ?_⟩
  have h1 : (handleMessage sampleConfig Socket.fresh (Parsed.value promptHello)
      FetchResult.rejected).socket.sent =
      [Outbound.textMessage (some (Json.str genericApology)) false, Outbound.endMessage] := rfl
  have h2 : (handleMessage sampleConfig Socket.fresh (Parsed.value promptHello)
      (FetchResult.response 500 (Parsed.value (Json.str "server error")))).socket.sent =
      [Outbound.textMessage (some (Json.str langflowApology)) false, Outbound.endMessage] := rfl
  rw [h1, h2]
  simp [genericApology, langflowApology]

/-- C7, amended: for every prompt event, a remote call that fails at the network level and a
response with a status outside 200 to 299 are answered by sequences of the same shape, a text
message with `last` false followed by the end message, but not by the same apology. The
apology is the one of the `catch` block when `fetch` rejects and when the reading of the body
of a response fails, whatever the status; it is the one naming the Langflow API when the
response has a status outside 200 to 299 and its body is read. -/
theorem C7_apologies_by_failure (cfg : Config) (socket : Socket) (message : Json)
    (voicePrompt : String) (status : Nat)
    (hev : IsPromptEvent message voicePrompt) (hbad : isOk status = false) :
    (handleMessage cfg socket (Parsed.value message) FetchResult.rejected).socket.sent =
      socket.sent ++
        [Outbound.textMessage (some (Json.str "I'm sorry, an application error has occurred."))
           false,
         Outbound.endMessage] ∧
    (∀ anyStatus : Nat,
      (handleMessage cfg socket (Parsed.value message)
          (FetchResult.bodyFailed anyStatus)).socket.sent =
        socket.sent ++
          [Outbound.textMessage
             (some (Json.str "I'm sorry, an application error has occurred."))
             false,
           Outbound.endMessage]) ∧
    (∀ body : Parsed,
      (handleMessage cfg socket (Parsed.value message)
          (FetchResult.response status body)).socket.sent =
        socket.sent ++
          [Outbound.textMessage
             (some (Json.str
               "I'm sorry, an application error has occurred with the Langflow API."))
             false,
           Outbound.endMessage]) := by
  refine ⟨?_, fun anyStatus => ?_, fun body => ?_⟩
  · rw [handleMessage_prompt cfg socket message voicePrompt hev, resume_of_rejected]
    rfl
  · rw [handleMessage_prompt cfg socket message voicePrompt hev, resume_of_bodyFailed]
    rfl
  · rw [handleMessage_prompt cfg socket message voicePrompt hev,
      resume_of_failure_status socket status body hbad]
    rfl

/-- The amended C7 at the prompt `hello` and the status 500. -/
theorem C7_apologies_by_failure_witness :
    (handleMessage sampleConfig Socket.fresh (Parsed.value promptHello)
        FetchResult.rejected).socket.sent =
      Socket.fresh.sent ++
        [Outbound.textMessage (some (Json.str "I'm sorry, an application error has occurred."))
           false,
         Outbound.endMessage] ∧
    (handleMessage sampleConfig Socket.fresh (Parsed.value promptHello)
        (FetchResult.bodyFailed 500)).socket.sent =
      Socket.fresh.sent ++
        [Outbound.textMessage (some (Json.str "I'm sorry, an application error has occurred."))
           false,
         Outbound.endMessage] ∧
    (handleMessage sampleConfig Socket.fresh (Parsed.value promptHello)
        (FetchResult.response 500 (Parsed.value (Json.str "server error")))).socket.sent =
      Socket.fresh.sent ++
        [Outbound.textMessage
           (some (Json.str "I'm sorry, an application error has occurred with the Langflow API."))
           false,
         Outbound.endMessage] :=
  have h := C7_apologies_by_failure sampleConfig Socket.fresh promptHello "hello" 500
    ⟨rfl, rfl⟩ rfl
  ⟨h.1, h.2.1 500, h.2.2 (Parsed.value (Json.str "server error"))⟩

/-- C8, as stated, fails: on a payload that is not valid JSON, and on the payload `null`, an
error leaves the handler (the promise it returns rejects). -/
theorem C8_counterexample :
    (handleMessage sampleConfig Socket.fresh Parsed.syntaxError FetchResult.rejected).raised
      = true ∧
    (handleMessage sampleConfig Socket.fresh (Parsed.value Json.null)
      FetchResult.rejected).raised = true :=
  ⟨rfl, rfl⟩

/-- C8, amended: on a payload that is not valid JSON and on the JSON value `null` the handler
raises (`JSON.parse` or the read of `type` fails, uncaught), having sent nothing, requested
nothing and left the call identifier as it is; on every other JSON value that is not an
object (a boolean, a number, a text, an array) it completes without raising, sends nothing,
requests nothing and leaves the call identifier as it is. -/
theorem C8_malformed_payloads (cfg : Config) (socket : Socket) (res : FetchResult) :
    handleMessage cfg socket Parsed.syntaxError res =
      { socket := socket, request := none, raised := true } ∧
    handleMessage cfg socket (Parsed.value Json.null) res =
      { socket := socket, request := none, raised := true } ∧
    (∀ b, handleMessage cfg socket (Parsed.value (Json.bool b)) res =
      { socket := socket, request := none, raised := false }) ∧
    (∀ n, handleMessage cfg socket (Parsed.value (Json.num n)) res =
      { socket := socket, request := none, raised := false }) ∧
    (∀ t, handleMessage cfg socket (Parsed.value (Json.str t)) res =
      { socket := socket, request := none, raised := false }) ∧
    (∀ items, handleMessage cfg socket (Parsed.value (Json.arr items)) res =
      { socket := socket, request := none, raised := false }) :=
  ⟨rfl, rfl, fun _ => rfl, fun _ => rfl, fun _ => rfl, fun _ => rfl⟩

/-- C9, as stated, fails: when the prompt `hello` and then the prompt `goodbye` arrive, the
handling of the second begins while the first is still suspended at its remote call (both
requests are issued, both calls wait); and when the remote call of the second settles first,
its reply is sent before the reply to the first. -/
theorem C9_counterexample :
    (exec sampleConfig Loop.fresh
        [Occurrence.frame (Parsed.value promptHello),
         Occurrence.frame (Parsed.value promptGoodbye)]).waiting.map Prod.fst = [0, 1] ∧
    (exec sampleConfig Loop.fresh
        [Occurrence.frame (Parsed.value promptHello),
         Occurrence.frame (Parsed.value promptGoodbye)]).requests.map
          (fun req => req.body.input_value) =
      [some (Json.str "hello"), some (Json.str "goodbye")] ∧
    (exec sampleConfig Loop.fresh
        [Occurrence.frame (Parsed.value promptHello),
         Occurrence.frame (Parsed.value promptGoodbye),
         Occurrence.settled 1
           (FetchResult.response 200 (Parsed.value (replyBody (Json.str "bye")))),
         Occurrence.settled 0
           (FetchResult.response 200 (Parsed.value (replyBody (Json.str "hi there"))))]
      ).socket.sent =
      [Outbound.textMessage (some (Json.str "bye")) false,
       Outbound.textMessage (some (Json.str "hi there")) false] ∧
    (exec sampleConfig Loop.fresh
        [Occurrence.frame (Parsed.value promptHello),
         Occurrence.frame (Parsed.value promptGoodbye),
         Occurrence.settled 1
           (FetchResult.response 200 (Parsed.value (replyBody (Json.str "bye")))),
         Occurrence.settled 0
           (FetchResult.response 200 (Parsed.value (replyBody (Json.str "hi there"))))]
      ).origins = [1, 0] :=
  ⟨rfl, rfl, rfl, rfl⟩

/-- C9, amended: on one connection the handler calls begin in arrival order and each runs
unbroken up to its remote call, so the call identifier and the requests issued are those of
the frames alone, in arrival order, whenever the remote calls settle; the handling of a frame
does not wait for the remote call of an earlier one, and the messages of a prompt are sent
when its own remote call settles. When each frame arrives only after the handling of the
previous one is over, the connection ends as if the frames were handled one after the other,
and the messages are sent in the arrival order of their frames. -/
theorem C9_arrival_order (cfg : Config) :
    (∀ trace : List Occurrence,
      (exec cfg Loop.fresh trace).requests = (exec cfg Loop.fresh (framesOnly trace)).requests ∧
      (exec cfg Loop.fresh trace).socket.callSid =
        (exec cfg Loop.fresh (framesOnly trace)).socket.callSid) ∧
    (∀ events : List (Parsed × FetchResult),
      (exec cfg Loop.fresh (serialTrace events)).socket = handleAll cfg Socket.fresh events ∧
      (exec cfg Loop.fresh (serialTrace events)).waiting = [] ∧
      (exec cfg Loop.fresh (serialTrace events)).origins.Pairwise (fun i j => i ≤ j)) := by
  constructor
  · intro trace
    have h := sameArrivals_exec cfg trace Loop.fresh Loop.fresh ⟨rfl, rfl, rfl⟩
    exact ⟨h.2.1, h.1⟩
  · intro events
    have h := serial_exec cfg events Loop.fresh
      ⟨rfl, List.Pairwise.nil, fun i hi => absurd hi (List.not_mem_nil i)⟩
    exact ⟨h.2, h.1.1, h.1.2.1⟩

/-- C10: for every prompt event whose remote response has a 2xx status and a body that is not
valid JSON, or that lacks a node somewhere along `outputs[0].outputs[0].results.message`, the
failure is caught in the handler: it sends exactly the apology of the `catch` block, with
`last` false, and then the end message, and raises nothing. -/
theorem C10_malformed_body_is_caught (cfg : Config) (socket : Socket) (message : Json)
    (voicePrompt : String) (status : Nat) (body : Parsed)
    (hev : IsPromptEvent message voicePrompt) (hok : isOk status = true)
    (hbody : body = Parsed.syntaxError ∨
      ∃ v p, body = Parsed.value v ∧ p <+: messagePath ∧ nodeAt (some v) p = none) :
    (handleMessage cfg socket (Parsed.value message)
        (FetchResult.response status body)).socket.sent =
      socket.sent ++
        [Outbound.textMessage (some (Json.str "I'm sorry, an application error has occurred."))
           false,
         Outbound.endMessage] ∧
    (handleMessage cfg socket (Parsed.value message)
        (FetchResult.response status body)).raised = false := by
  rw [handleMessage_prompt cfg socket message voicePrompt hev]
  rcases hbody with h | ⟨v, p, h, hp, hnone⟩
  · subst h
    rw [resume_of_invalid_body socket status hok]
    exact ⟨rfl, rfl⟩
  · subst h
    rw [resume_of_failed_read socket status v hok (readOutputText_of_lacking v p hp hnone)]
    exact ⟨rfl, rfl⟩

/-- C10 at a body whose `outputs` is an empty array: the node `outputs[0]` is lacking. -/
theorem C10_malformed_body_is_caught_witness :
    (handleMessage sampleConfig Socket.fresh (Parsed.value promptHello)
        (FetchResult.response 200
          (Parsed.value (Json.obj [("outputs", Json.arr [])])))).socket.sent =
      Socket.fresh.sent ++
        [Outbound.textMessage (some (Json.str "I'm sorry, an application error has occurred."))
           false,
         Outbound.endMessage] ∧
    (handleMessage sampleConfig Socket.fresh (Parsed.value promptHello)
        (FetchResult.response 200
          (Parsed.value (Json.obj [("outputs", Json.arr [])])))).raised = false :=
  C10_malformed_body_is_caught sampleConfig Socket.fresh promptHello "hello" 200
    (Parsed.value (Json.obj [("outputs", Json.arr [])])) ⟨rfl, rfl⟩ rfl
    (Or.inr ⟨Json.obj [("outputs", Json.arr [])],
      [Access.member "outputs", Access.first], rfl,
      ⟨[Access.member "outputs", Access.first, Access.member "results",
        Access.member "message"], rfl⟩, rfl⟩)

end Relay
